import Mathlib

/-!
Verification of the PaiGram join-verification module (`plugins/system/auth.py`,
class `GroupJoiningVerification`) and the template preview cache
(`core/template/cache.py`, class `TemplatePreviewCache`).

The Python handlers are event-driven glue over the Telegram bot client and the
APScheduler job queue.  We embed each handler as a pure function from its
inputs (parsed update fields, the resolved results of external reads such as
`get_chat_administrators` / quiz-service lookups, and per-call outcomes of
external calls that the source inspects) to the ordered list of side effects
it issues.  External collaborators (the bot client, the scheduler, the quiz
service, `pickle`, `gzip`, `escape_markdown`, `mention_markdown_v2`) are model
parameters; bot-client calls whose failure the source does not handle are
modelled as always-succeeding effect emissions.
-/

namespace PaiGram

/-- `telegram.ChatPermissions` restricted to the eight flags the source sets.
A flag the constructor leaves unset is modelled as `false`. -/
structure ChatPermissionsM where
  can_send_messages : Bool
  can_send_media_messages : Bool
  can_send_polls : Bool
  can_send_other_messages : Bool
  can_add_web_page_previews : Bool
  can_change_info : Bool
  can_invite_users : Bool
  can_pin_messages : Bool
deriving DecidableEq, Repr

/-- `FullChatPermissions` from `auth.py` lines 17-26: every flag `True`. -/
def FullChatPermissions : ChatPermissionsM :=
  ⟨true, true, true, true, true, true, true, true⟩

/-- `ChatPermissions(can_send_messages=False)` used in `new_mem` line 233. -/
def NoSendPermissions : ChatPermissionsM :=
  ⟨false, false, false, false, false, false, false, false⟩

/-- An inline keyboard button: display text plus callback payload. -/
structure InlineKeyboardButtonM where
  text : String
  callback_data : String
deriving DecidableEq, Repr

/-- Which coroutine a scheduled job will run. -/
inductive JobCallback
  | kick_member_job
  | clean_message_job
deriving DecidableEq, Repr

/-- One observable side effect issued by a handler, in program order. -/
inductive Effect
  | answerCallbackQuery (text : String) (show_alert : Bool)
  | restrictChatMember (chat_id : Int) (user_id : Int) (permissions : ChatPermissionsM)
  | banChatMember (chat_id : Int) (user_id : Int) (until_date : Option Int)
  | editMessageText (text : String) (buttons : List (List InlineKeyboardButtonM))
  | sendMessage (chat_id : Int) (text : String)
  | replyText (text : String)
  | replyMarkdownV2 (text : String) (buttons : List (List InlineKeyboardButtonM))
  | scheduleJob (callback : JobCallback) (whenSecs : Nat) (name : String)
      (jobId : String) (replaceExisting : Bool) (data : Option Int)
  | removeJob (jobId : String)
  | quizServiceRefresh
deriving DecidableEq, Repr

/-- `self.time_out = 120` (`auth.py` line 35). -/
def time_out : Nat := 120

/-- `self.kick_time = 120` (`auth.py` line 36), added to `int(time.time())`. -/
def kick_time : Int := 120

/-- `f"{chat.id}|{user.id}|auth_kick"`. -/
def authKickJobName (chat_id user_id : Int) : String :=
  toString chat_id ++ "|" ++ toString user_id ++ "|auth_kick"

/-- `f"{chat.id}|{user.id}|auth_clean_join_message"`. -/
def authCleanJoinMessageJobName (chat_id user_id : Int) : String :=
  toString chat_id ++ "|" ++ toString user_id ++ "|auth_clean_join_message"

/-- `f"{chat.id}|{user.id}|auth_clean_question_message"`. -/
def authCleanQuestionMessageJobName (chat_id user_id : Int) : String :=
  toString chat_id ++ "|" ++ toString user_id ++ "|auth_clean_question_message"

/-- One entry of a `get_chat_administrators` result; the source only reads
`admin.user.id`, so we model just that field. -/
structure ChatMemberM where
  user_id : Int
deriving DecidableEq, Repr

/-- `is_admin` (`auth.py` lines 59-61):
`any(admin.user.id == user_id for admin in chat_administrators)`. -/
def is_admin (chat_administrators : List ChatMemberM) (user_id : Int) : Bool :=
  chat_administrators.any (fun a => a.user_id = user_id)

/-- `get_chat_administrators` (`auth.py` lines 48-57) as a pure step on the
cache entry for one chat (the whole body runs under `self.lock`, so one call
is atomic).  `cache` is `self.chat_administrators_cache.get(f"{chat_id}")`,
`now` is `time.time()` (modelled in integral seconds), `fetched` is the list
`context.bot.get_chat_administrators(chat_id)` would return.  Result: the
returned list and the new cache entry.  Note the coded guard returns the
cached list only when `time.time() >= cache_time + 360`. -/
def get_chat_administrators (cache : Option (Int × List ChatMemberM)) (now : Int)
    (fetched : List ChatMemberM) : List ChatMemberM × Option (Int × List ChatMemberM) :=
  match cache with
  | some (cache_time, chat_administrators) =>
      if cache_time + 360 ≤ now then
        (chat_administrators, some (cache_time, chat_administrators))
      else
        (fetched, some (now, fetched))
  | none => (fetched, some (now, fetched))

/-- `if schedule := context.job_queue.scheduler.get_job(jobId): schedule.remove()`.
`jobs` is the set of job ids currently registered in the scheduler. -/
def removeJobIfExists (jobs : List String) (jobId : String) : List Effect :=
  if jobs.contains jobId then [Effect.removeJob jobId] else []

/-- Python's `str.split("|")` on the character list: splitting an empty
string yields one empty field, and consecutive separators yield empty
fields. -/
def splitCharsOnPipe : List Char → List (List Char)
  | [] => [[]]
  | c :: cs =>
    let r := splitCharsOnPipe cs
    if c = '|' then [] :: r
    else (c :: r.headD []) :: r.tail

/-- Python's `callback_query_data.split("|")`. -/
def pySplitPipe (s : String) : List String :=
  (splitCharsOnPipe s.toList).map (fun cs => String.mk cs)

def charsToNatAux : List Char → Nat → Option Nat
  | [], acc => some acc
  | c :: cs, acc => if c.isDigit then charsToNatAux cs (acc * 10 + (c.toNat - 48)) else none

def charsToNat : List Char → Option Nat
  | [] => none
  | cs => charsToNatAux cs 0

/-- Python's `int(s)` on decimal payload fields; `none` corresponds to the
`ValueError` Python raises on a non-numeric field. -/
def pyInt (s : String) : Option Int :=
  match s.toList with
  | '-' :: cs => (charsToNat cs).map (fun n => -(n : Int))
  | cs => (charsToNat cs).map (fun n => (n : Int))

/-- `admin_callback` (`auth.py` lines 97-102): split the payload on `"|"` and
take fields 1 and 2.  (The Python raises on a malformed payload; no claim
exercises that path, so out-of-range access and unparsable integers are
modelled with defaults.) -/
def admin_callback (callback_query_data : String) : String × Int :=
  let d := pySplitPipe callback_query_data
  (d.getD 1 "", (pyInt (d.getD 2 "")).getD 0)

/-- The `admin` handler (`auth.py` lines 95-150).  Inputs: the resolved
administrator list (the result of `get_chat_administrators`, whose cache step
is modelled separately), the presser, the chat, the raw callback payload,
`user_info` (the mention or fallback string resolved from `get_chat_member`),
and the scheduler's current job ids. -/
def admin (chat_administrators : List ChatMemberM) (presser_id : Int)
    (presser_mention : String) (chat_id : Int) (callback_query_data : String)
    (user_info : String) (jobs : List String) : List Effect :=
  if is_admin chat_administrators presser_id = false then
    [Effect.answerCallbackQuery "你不是管理！\n再乱点我叫西风骑士团、千岩军和天领奉行了！" true]
  else
    let ru := admin_callback callback_query_data
    let result := ru.1
    let user_id := ru.2
    (if result = "pass" then
      [Effect.answerCallbackQuery "放行" false,
       Effect.restrictChatMember chat_id user_id FullChatPermissions]
      ++ removeJobIfExists jobs (authCleanJoinMessageJobName chat_id user_id)
      ++ [Effect.editMessageText (user_info ++ " 被 " ++ presser_mention ++ " 放行") []]
    else if result = "kick" then
      [Effect.answerCallbackQuery "驱离" false,
       Effect.banChatMember chat_id user_id none,
       Effect.editMessageText (user_info ++ " 被 " ++ presser_mention ++ " 驱离") []]
    else if result = "unban" then
      [Effect.answerCallbackQuery "解除驱离" false,
       Effect.restrictChatMember chat_id user_id FullChatPermissions]
      ++ removeJobIfExists jobs (authCleanJoinMessageJobName chat_id user_id)
      ++ [Effect.editMessageText (user_info ++ " 被 " ++ presser_mention ++ " 解除驱离") []]
    else
      [Effect.sendMessage chat_id "派蒙这边收到了错误的消息！请检查详细日记！"])
    ++ removeJobIfExists jobs (authKickJobName chat_id user_id)

/-- A quiz answer record as consumed by the flow. -/
structure AnswerM where
  answer_id : Int
  text : String
  is_correct : Bool
deriving DecidableEq, Repr

/-- A quiz question record as consumed by the flow. -/
structure QuestionM where
  question_id : Int
  text : String
  answers : List AnswerM
deriving DecidableEq, Repr

/-- `query_callback` (`auth.py` lines 154-166): parse the payload and resolve
the answer/question through the quiz service (`get_answer`, `get_question`
are model parameters for that external service). -/
def query_callback (get_answer : Int → AnswerM) (get_question : Int → QuestionM)
    (callback_query_data : String) : Int × Bool × String × String :=
  let d := pySplitPipe callback_query_data
  let u := (pyInt (d.getD 1 "")).getD 0
  let q := get_question ((pyInt (d.getD 2 "")).getD 0)
  let a := get_answer ((pyInt (d.getD 3 "")).getD 0)
  (u, a.is_correct, q.text, a.text)

/-- The `query` handler (`auth.py` lines 152-207).  `now` is
`int(time.time())` at the ban call; `edit_raises` says whether
`message.edit_text` raises a `BadRequest` other than the tolerated
same-content one (in which case the trailing kick-job removal is skipped and
the exception propagates — second component `true`). -/
def query (get_answer : Int → AnswerM) (get_question : Int → QuestionM)
    (escape_md : String → String) (presser_id : Int) (presser_mention : String)
    (chat_id : Int) (callback_query_data : String) (jobs : List String)
    (now : Int) (edit_raises : Bool) : List Effect × Bool :=
  let r := query_callback get_answer get_question callback_query_data
  let user_id := r.1
  let result := r.2.1
  let question := r.2.2.1
  let answer := r.2.2.2
  if presser_id ≠ user_id then
    ([Effect.answerCallbackQuery "这不是你的验证！\n再乱点再按我叫西风骑士团、千岩军和天领奉行了！" true],
     false)
  else
    let pre :=
      if result then
        [Effect.answerCallbackQuery "验证成功" false,
         Effect.restrictChatMember chat_id user_id FullChatPermissions]
        ++ removeJobIfExists jobs (authCleanJoinMessageJobName chat_id presser_id)
      else
        [Effect.answerCallbackQuery ("验证失败，请在 " ++ toString time_out ++ " 秒后重试") true,
         Effect.banChatMember chat_id user_id (some (now + kick_time))]
    let buttons :=
      if result then
        [[InlineKeyboardButtonM.mk "驱离" ("auth_admin|kick|" ++ toString presser_id)]]
      else
        [[InlineKeyboardButtonM.mk "驱离" ("auth_admin|kick|" ++ toString presser_id),
          InlineKeyboardButtonM.mk "撤回驱离" ("auth_admin|unban|" ++ toString presser_id)]]
    let text :=
      if result then
        presser_mention ++ " 验证成功，向着星辰与深渊！\n问题：" ++ escape_md question
          ++ " \n回答：" ++ escape_md answer
      else
        presser_mention ++ " 验证失败，已经赶出提瓦特大陆！\n问题：" ++ escape_md question
          ++ " \n回答：" ++ escape_md answer
    let effs := pre ++ [Effect.editMessageText text buttons]
    if edit_raises then (effs, true)
    else (effs ++ removeJobIfExists jobs (authKickJobName chat_id presser_id), false)

/-- One entry of `message.new_chat_members`; the source reads `user.id` and
`user.is_bot`. -/
structure UserM where
  id : Int
  is_bot : Bool
deriving DecidableEq, Repr

/-- Outcome of the `restrict_chat_member` call in `new_mem` (lines 231-243):
success, a `BadRequest` whose text contains `"Not enough rights"`, or any
other `BadRequest` (re-raised by the source). -/
inductive RestrictOutcome
  | ok
  | notEnoughRights
  | otherError
deriving DecidableEq, Repr

/-- Per-member outcomes of the external calls made while processing one entry
of `new_chat_members`: the restrict outcome, the index drawn by
`self.random.random(0, len(question_id_list))`, the permutation
`random.shuffle` applies to the answer rows (as a list of source indices),
whether `message.reply_markdown_v2` raises `BadRequest`, and the message id
of the sent challenge message. -/
structure MemberEnv where
  restrict_outcome : RestrictOutcome
  question_index : Nat
  shuffle_perm : List Nat
  send_fails : Bool
  question_message_id : Int
deriving DecidableEq, Repr

/-- Result of one `new_mem` invocation: the effect list, the final value of
`context.chat_data["not_enough_rights"]`, and whether an exception
propagated out of the handler. -/
structure NewMemResult where
  effects : List Effect
  not_enough_rights : Bool
  raised : Bool
deriving DecidableEq, Repr

/-- The `for user in message.new_chat_members` loop of `new_mem`
(`auth.py` lines 224-290).  `question_id_list` is the (loop-invariant) result
of `quiz_service.get_question_id_list()`; `envs` supplies the external-call
outcomes for each member in order.  A `restrictChatMember` effect is emitted
only when the call succeeds (a failed restrict applies no restriction). -/
def processMembers (get_question : Int → QuestionM) (escape_md : String → String)
    (chat_id : Int) (join_message_id : Int) (question_id_list : List Int) :
    List UserM → List MemberEnv → NewMemResult
  | [], _ => ⟨[], false, false⟩
  | _ :: _, [] => ⟨[], false, false⟩
  | u :: rest, env :: envs =>
    if u.is_bot then
      processMembers get_question escape_md chat_id join_message_id question_id_list rest envs
    else if question_id_list.length = 0 then
      ⟨[Effect.replyText "旅行者！！！派蒙的问题清单你还没给我！！快去私聊我给我问题！"], false, false⟩
    else
      match env.restrict_outcome with
      | RestrictOutcome.notEnoughRights => ⟨[], true, false⟩
      | RestrictOutcome.otherError => ⟨[], false, true⟩
      | RestrictOutcome.ok =>
        let restrictEff := Effect.restrictChatMember chat_id u.id NoSendPermissions
        let question := get_question (question_id_list.getD env.question_index 0)
        let answerRows := question.answers.map (fun a =>
          [InlineKeyboardButtonM.mk a.text
            ("auth_challenge|" ++ toString u.id ++ "|" ++ toString question.question_id
              ++ "|" ++ toString a.answer_id)])
        let buttons := env.shuffle_perm.filterMap (fun i => answerRows[i]?)
          ++ [[InlineKeyboardButtonM.mk "放行" ("auth_admin|pass|" ++ toString u.id),
               InlineKeyboardButtonM.mk "驱离" ("auth_admin|kick|" ++ toString u.id)]]
        let reply_text := "*欢迎来到「提瓦特」世界！* \n问题: " ++ escape_md question.text
          ++ " \n请在 " ++ toString time_out ++ "S 内回答问题"
        if env.send_fails then
          ⟨[restrictEff, Effect.replyText "派蒙分心了一下，不小心忘记你了，你只能先退出群再重新进来吧。"],
           false, true⟩
        else
          let jobEffs :=
            [Effect.scheduleJob JobCallback.kick_member_job time_out
               (authKickJobName chat_id u.id) (authKickJobName chat_id u.id) true none,
             Effect.scheduleJob JobCallback.clean_message_job time_out
               (authCleanJoinMessageJobName chat_id u.id) (authKickJobName chat_id u.id) true
               (some join_message_id),
             Effect.scheduleJob JobCallback.clean_message_job time_out
               (authCleanQuestionMessageJobName chat_id u.id) (authKickJobName chat_id u.id) true
               (some env.question_message_id)]
          let r := processMembers get_question escape_md chat_id join_message_id
            question_id_list rest envs
          ⟨[restrictEff, Effect.replyMarkdownV2 reply_text buttons] ++ jobEffs ++ r.effects,
           r.not_enough_rights, r.raised⟩

/-- The `new_mem` handler (`auth.py` lines 209-290).  `not_enough_rights` is
`context.chat_data.get("not_enough_rights", False)`; `is_refresh_quiz` is the
one-shot flag consulted by `refresh_quiz` (whose state step is
`refresh_quiz_state` below); `chat_administrators` is the resolved result of
`get_chat_administrators`. -/
def new_mem (get_question : Int → QuestionM) (escape_md : String → String)
    (bot_id : Int) (chat_id : Int) (from_user_id : Int) (join_message_id : Int)
    (new_chat_members : List UserM) (not_enough_rights : Bool) (is_refresh_quiz : Bool)
    (chat_administrators : List ChatMemberM) (question_id_list : List Int)
    (envs : List MemberEnv) : NewMemResult :=
  let refreshEffs := if is_refresh_quiz then [] else [Effect.quizServiceRefresh]
  if new_chat_members.any (fun u => u.id = bot_id) then
    ⟨refreshEffs, not_enough_rights, false⟩
  else if not_enough_rights then
    ⟨refreshEffs, not_enough_rights, false⟩
  else if is_admin chat_administrators from_user_id then
    ⟨refreshEffs ++ [Effect.replyText "派蒙检测到管理员邀请，自动放行了！"], not_enough_rights, false⟩
  else
    let r := processMembers get_question escape_md chat_id join_message_id
      question_id_list new_chat_members envs
    ⟨refreshEffs ++ r.effects, not_enough_rights || r.not_enough_rights, r.raised⟩

/-- The job id a `scheduleJob` effect registers under, if any. -/
def effectJobId : Effect → Option String
  | Effect.scheduleJob _ _ _ jobId _ _ => some jobId
  | _ => none

/-- The job name a `scheduleJob` effect carries, if any. -/
def effectJobName : Effect → Option String
  | Effect.scheduleJob _ _ name _ _ _ => some name
  | _ => none

/-- `true` on effects that mutate chat state: permission changes, bans,
messages sent or edited, scheduler changes. -/
def mutatesChat : Effect → Bool
  | Effect.restrictChatMember _ _ _ => true
  | Effect.banChatMember _ _ _ => true
  | Effect.editMessageText _ _ => true
  | Effect.sendMessage _ _ => true
  | Effect.replyText _ => true
  | Effect.replyMarkdownV2 _ _ => true
  | Effect.scheduleJob _ _ _ _ _ _ => true
  | Effect.removeJob _ => true
  | _ => false

/-- State touched by `refresh_quiz` (`auth.py` lines 42-46): the
`is_refresh_quiz` flag plus an instrumentation counter of how many times
`quiz_service.refresh_quiz()` has been invoked.  The body runs under
`self.lock`, so calls are serialized and one call is one step. -/
structure RefreshState where
  is_refresh_quiz : Bool
  service_refresh_calls : Nat
deriving DecidableEq, Repr

/-- `self.is_refresh_quiz = False` in `__init__`, no refresh yet. -/
def initialRefreshState : RefreshState := ⟨false, 0⟩

/-- One call to `refresh_quiz`: under the lock, if the flag is unset, invoke
the service refresh and set the flag; otherwise do nothing. -/
def refresh_quiz (s : RefreshState) : RefreshState :=
  if s.is_refresh_quiz then s else ⟨true, s.service_refresh_calls + 1⟩

/-! ## Preview cache (`core/template/cache.py`) -/

/-- The backing store (redis): an association list from key to
(stored bytes, optional TTL).  Bytes are modelled as `List Nat`. -/
abbrev TStore := List (String × List Nat × Option Int)

/-- Redis `GET`: the bytes under `k`, or `none` when absent/evicted. -/
def storeGet (st : TStore) (k : String) : Option (List Nat) :=
  (st.find? (fun p => p.1 = k)).map (fun p => p.2.1)

/-- Redis `SET`: overwrite the value under `k` (clearing any TTL). -/
def storeSet (st : TStore) (k : String) (v : List Nat) : TStore :=
  (k, v, none) :: st.filter (fun p => p.1 ≠ k)

/-- Redis `EXPIRE`: set the TTL of the entry under `k`. -/
def storeExpire (st : TStore) (k : String) (ttl : Int) : TStore :=
  st.map (fun p => if p.1 = k then (p.1, p.2.1, some ttl) else p)

/-- `cache_key` (`cache.py` lines 27-28) with `self.qname = "bot:template:preview"`. -/
def cache_key (key : String) : String := "bot:template:preview:" ++ key

/-- `get_data` (`cache.py` lines 15-19).  `deserialize`/`decompress` stand for
`pickle.loads`/`gzip.decompress`.  Python's `if data:` is false both for a
missing key and for an empty byte string. -/
def get_data {α : Type} (deserialize : List Nat → α) (decompress : List Nat → List Nat)
    (st : TStore) (key : String) : Option α :=
  match storeGet st (cache_key key) with
  | some data => if data ≠ [] then some (deserialize (decompress data)) else none
  | none => none

/-- `set_data` (`cache.py` lines 21-25).  `serialize`/`compress` stand for
`pickle.dumps`/`gzip.compress`; when `ttl != -1` an expiration is set. -/
def set_data {α : Type} (serialize : α → List Nat) (compress : List Nat → List Nat)
    (st : TStore) (key : String) (data : α) (ttl : Int) : TStore :=
  let ck := cache_key key
  let st1 := storeSet st ck (compress (serialize data))
  if ttl ≠ -1 then storeExpire st1 ck ttl else st1

/-! ## Theorems -/

/-- C2: in `get_chat_administrators`, a cached entry whose age is at least
360 seconds is returned unchanged (cache untouched); otherwise — entry absent
or younger than 360 seconds — the list is refetched, the entry is overwritten
with (current time, fetched list), and the fetched list is returned. -/
theorem c2_get_chat_administrators_spec (cache_time now : Int)
    (cached fetched : List ChatMemberM) :
    (cache_time + 360 ≤ now →
      get_chat_administrators (some (cache_time, cached)) now fetched
        = (cached, some (cache_time, cached))) ∧
    (now < cache_time + 360 →
      get_chat_administrators (some (cache_time, cached)) now fetched
        = (fetched, some (now, fetched))) ∧
    get_chat_administrators none now fetched = (fetched, some (now, fetched)) := by
  refine ⟨fun h => ?_, fun h => ?_, rfl⟩
  · simp [get_chat_administrators, h]
  · simp [get_chat_administrators, not_le.mpr h]

/-- Witness for C2 at concrete inputs: a stale entry (age 400 ≥ 360) is
returned as cached; a fresh entry (age 0 < 360) is refetched and overwritten. -/
theorem c2_get_chat_administrators_spec_witness :
    ((0 : Int) + 360 ≤ 400 ∧
      get_chat_administrators (some (0, [ChatMemberM.mk 1])) 400 [ChatMemberM.mk 2]
        = ([ChatMemberM.mk 1], some (0, [ChatMemberM.mk 1]))) ∧
    ((500 : Int) < 500 + 360 ∧
      get_chat_administrators (some (500, [ChatMemberM.mk 1])) 500 [ChatMemberM.mk 2]
        = ([ChatMemberM.mk 2], some (500, [ChatMemberM.mk 2]))) :=
  ⟨⟨by norm_num,
    (c2_get_chat_administrators_spec 0 400 [ChatMemberM.mk 1] [ChatMemberM.mk 2]).1 (by norm_num)⟩,
   ⟨by norm_num,
    (c2_get_chat_administrators_spec 500 500 [ChatMemberM.mk 1] [ChatMemberM.mk 2]).2.1 (by norm_num)⟩⟩

lemma refresh_quiz_fixed (s : RefreshState) (h : s.is_refresh_quiz = true) :
    refresh_quiz s = s := by
  simp [refresh_quiz, h]

lemma refresh_quiz_iterate_fixed (n : Nat) :
    refresh_quiz^[n] ⟨true, 1⟩ = (⟨true, 1⟩ : RefreshState) := by
  induction n with
  | zero => rfl
  | succ m ih =>
    rw [Function.iterate_succ_apply, refresh_quiz_fixed ⟨true, 1⟩ rfl, ih]

/-- C9: starting from the initial state, any sequence of `refresh_quiz` calls
invokes the underlying quiz-service refresh at most once; after at least one
call the state is flag-set with exactly one service refresh, and a call made
with the flag already set changes nothing. -/
theorem c9_refresh_quiz_at_most_once (n : Nat) :
    (refresh_quiz^[n] initialRefreshState).service_refresh_calls ≤ 1 ∧
    (1 ≤ n → refresh_quiz^[n] initialRefreshState = ⟨true, 1⟩) ∧
    (∀ s : RefreshState, s.is_refresh_quiz = true → refresh_quiz s = s) := by
  have key : ∀ m : Nat,
      refresh_quiz^[m + 1] initialRefreshState = (⟨true, 1⟩ : RefreshState) := by
    intro m
    rw [Function.iterate_succ_apply]
    have h1 : refresh_quiz initialRefreshState = (⟨true, 1⟩ : RefreshState) := rfl
    rw [h1, refresh_quiz_iterate_fixed]
  refine ⟨?_, ?_, refresh_quiz_fixed⟩
  · cases n with
    | zero => decide
    | succ m => rw [key m]
  · intro h
    cases n with
    | zero => omega
    | succ m => exact key m

/-- Witness for C9 at `n = 3` and at the concrete flag-set state `⟨true, 5⟩`. -/
theorem c9_refresh_quiz_at_most_once_witness :
    (refresh_quiz^[3] initialRefreshState).service_refresh_calls ≤ 1 ∧
    refresh_quiz^[3] initialRefreshState = (⟨true, 1⟩ : RefreshState) ∧
    refresh_quiz ⟨true, 5⟩ = (⟨true, 5⟩ : RefreshState) :=
  ⟨(c9_refresh_quiz_at_most_once 3).1,
   (c9_refresh_quiz_at_most_once 3).2.1 (by norm_num),
   (c9_refresh_quiz_at_most_once 3).2.2 ⟨true, 5⟩ rfl⟩

lemma storeGet_cons (a : String) (b : List Nat) (c : Option Int) (st : TStore) (k : String) :
    storeGet ((a, b, c) :: st) k = if a = k then some b else storeGet st k := by
  by_cases h : a = k
  · simp [storeGet, List.find?_cons, h]
  · simp [storeGet, List.find?_cons, h]

lemma storeGet_storeSet (st : TStore) (k : String) (v : List Nat) :
    storeGet (storeSet st k v) k = some v := by
  simp [storeSet, storeGet_cons]

lemma storeGet_storeExpire (st : TStore) (k k2 : String) (ttl : Int) :
    storeGet (storeExpire st k ttl) k2 = storeGet st k2 := by
  induction st with
  | nil => rfl
  | cons p rest ih =>
    obtain ⟨pk, pv, pt⟩ := p
    have hexp : storeExpire ((pk, pv, pt) :: rest) k ttl
        = (if pk = k then (pk, pv, some ttl) else (pk, pv, pt)) :: storeExpire rest k ttl := by
      simp [storeExpire]
    rw [hexp]
    by_cases hk : pk = k
    · rw [if_pos hk, storeGet_cons, storeGet_cons, ih]
    · rw [if_neg hk, storeGet_cons, storeGet_cons, ih]

lemma storeGet_set_data {α : Type} (serialize : α → List Nat)
    (compress : List Nat → List Nat) (st : TStore) (key : String) (v : α) (ttl : Int) :
    storeGet (set_data serialize compress st key v ttl) (cache_key key)
      = some (compress (serialize v)) := by
  by_cases h : ttl = -1
  · simp [set_data, h, storeGet_storeSet]
  · simp [set_data, h, storeGet_storeExpire, storeGet_storeSet]

/-- C8: for any serializer/compressor pair whose decode side inverts its
encode side (as `pickle`/`gzip` do) and whose compressed output is never
empty (gzip output always carries a header), `get_data` after
`set_data key v ttl` returns `some v` as long as the backing store still
holds the key; and when the store holds nothing under the namespaced key,
`get_data` returns an empty result rather than an error. -/
theorem c8_preview_cache_roundtrip {α : Type}
    (serialize : α → List Nat) (deserialize : List Nat → α)
    (compress decompress : List Nat → List Nat)
    (hser : ∀ v, deserialize (serialize v) = v)
    (hcomp : ∀ b, decompress (compress b) = b)
    (hne : ∀ b, compress b ≠ [])
    (st : TStore) (key : String) (v : α) (ttl : Int) :
    get_data deserialize decompress (set_data serialize compress st key v ttl) key = some v ∧
    (∀ st2 : TStore, storeGet st2 (cache_key key) = none →
      get_data deserialize decompress st2 key = none) := by
  constructor
  · unfold get_data
    rw [storeGet_set_data]
    simp [hne (serialize v), hcomp, hser]
  · intro st2 h2
    unfold get_data
    rw [h2]

/-- Witness for C8 with a concrete invertible codec (`serialize n = [n]`,
`compress` prepends a header byte), value `7`, key `"k"`, TTL 60, and the
empty backing store for the absent-key case. -/
theorem c8_preview_cache_roundtrip_witness :
    get_data (fun b => b.headD 0) (fun b => b.drop 1)
        (set_data (fun n : Nat => [n]) (fun b => 0 :: b) [] "k" 7 60) "k" = some 7 ∧
    get_data (fun b => b.headD 0) (fun b => b.drop 1) ([] : TStore) "k" = (none : Option Nat) := by
  have h := c8_preview_cache_roundtrip (fun n : Nat => [n]) (fun b => b.headD 0)
    (fun b => 0 :: b) (fun b => b.drop 1)
    (fun v => rfl) (fun b => rfl) (fun b => by simp) [] "k" 7 60
  exact ⟨h.1, h.2 [] rfl⟩

/-- C3: a quiz callback carrying a correct answer, pressed by the addressed
user while both of the challenge's claimed jobs (kick, join-message cleanup)
are still pending, restores the user to `FullChatPermissions`, removes both
jobs, and edits the challenge message to the success text with a single
admin kick button. -/
theorem c3_query_correct_answer
    (get_answer : Int → AnswerM) (get_question : Int → QuestionM) (escape_md : String → String)
    (presser_id : Int) (presser_mention : String) (chat_id : Int) (data : String)
    (jobs : List String) (now : Int) (q a : String)
    (hcb : query_callback get_answer get_question data = (presser_id, true, q, a))
    (hkick : authKickJobName chat_id presser_id ∈ jobs)
    (hclean : authCleanJoinMessageJobName chat_id presser_id ∈ jobs) :
    query get_answer get_question escape_md presser_id presser_mention chat_id data jobs now false
      = ([Effect.answerCallbackQuery "验证成功" false,
          Effect.restrictChatMember chat_id presser_id FullChatPermissions,
          Effect.removeJob (authCleanJoinMessageJobName chat_id presser_id),
          Effect.editMessageText
            (presser_mention ++ " 验证成功，向着星辰与深渊！\n问题：" ++ escape_md q
              ++ " \n回答：" ++ escape_md a)
            [[InlineKeyboardButtonM.mk "驱离" ("auth_admin|kick|" ++ toString presser_id)]],
          Effect.removeJob (authKickJobName chat_id presser_id)], false) := by
  unfold query
  rw [hcb]
  simp [removeJobIfExists, hkick, hclean]

/-- Witness for C3: a concrete correct-answer press with both jobs pending. -/
theorem c3_query_correct_answer_witness :
    query (fun _ => AnswerM.mk 9 "ans" true) (fun _ => QuestionM.mk 5 "qst" [])
        (fun s => s) 2 "@u" 1 "auth_challenge|2|5|9"
        [authKickJobName 1 2, authCleanJoinMessageJobName 1 2] 1000 false
      = ([Effect.answerCallbackQuery "验证成功" false,
          Effect.restrictChatMember 1 2 FullChatPermissions,
          Effect.removeJob (authCleanJoinMessageJobName 1 2),
          Effect.editMessageText
            ("@u" ++ " 验证成功，向着星辰与深渊！\n问题：" ++ "qst" ++ " \n回答：" ++ "ans")
            [[InlineKeyboardButtonM.mk "驱离" ("auth_admin|kick|" ++ toString (2 : Int))]],
          Effect.removeJob (authKickJobName 1 2)], false) :=
  c3_query_correct_answer (fun _ => AnswerM.mk 9 "ans" true) (fun _ => QuestionM.mk 5 "qst" [])
    (fun s => s) 2 "@u" 1 "auth_challenge|2|5|9"
    [authKickJobName 1 2, authCleanJoinMessageJobName 1 2] 1000 "qst" "ans"
    (by decide) (by decide) (by decide)

/-- C4: a quiz callback carrying an incorrect answer, pressed by the
addressed user while the kick job is pending, bans the user until
`answer_time + 120` seconds, edits the message to the failure text with kick
and unban admin buttons, and removes the pending kick job. -/
theorem c4_query_wrong_answer
    (get_answer : Int → AnswerM) (get_question : Int → QuestionM) (escape_md : String → String)
    (presser_id : Int) (presser_mention : String) (chat_id : Int) (data : String)
    (jobs : List String) (now : Int) (q a : String)
    (hcb : query_callback get_answer get_question data = (presser_id, false, q, a))
    (hkick : authKickJobName chat_id presser_id ∈ jobs) :
    query get_answer get_question escape_md presser_id presser_mention chat_id data jobs now false
      = ([Effect.answerCallbackQuery ("验证失败，请在 " ++ toString time_out ++ " 秒后重试") true,
          Effect.banChatMember chat_id presser_id (some (now + 120)),
          Effect.editMessageText
            (presser_mention ++ " 验证失败，已经赶出提瓦特大陆！\n问题：" ++ escape_md q
              ++ " \n回答：" ++ escape_md a)
            [[InlineKeyboardButtonM.mk "驱离" ("auth_admin|kick|" ++ toString presser_id),
              InlineKeyboardButtonM.mk "撤回驱离" ("auth_admin|unban|" ++ toString presser_id)]],
          Effect.removeJob (authKickJobName chat_id presser_id)], false) := by
  unfold query
  rw [hcb]
  simp [removeJobIfExists, hkick, kick_time]

/-- Witness for C4: a concrete wrong-answer press with the kick job pending. -/
theorem c4_query_wrong_answer_witness :
    query (fun _ => AnswerM.mk 9 "ans" false) (fun _ => QuestionM.mk 5 "qst" [])
        (fun s => s) 2 "@u" 1 "auth_challenge|2|5|9" [authKickJobName 1 2] 1000 false
      = ([Effect.answerCallbackQuery ("验证失败，请在 " ++ toString time_out ++ " 秒后重试") true,
          Effect.banChatMember 1 2 (some (1000 + 120)),
          Effect.editMessageText
            ("@u" ++ " 验证失败，已经赶出提瓦特大陆！\n问题：" ++ "qst" ++ " \n回答：" ++ "ans")
            [[InlineKeyboardButtonM.mk "驱离" ("auth_admin|kick|" ++ toString (2 : Int)),
              InlineKeyboardButtonM.mk "撤回驱离" ("auth_admin|unban|" ++ toString (2 : Int))]],
          Effect.removeJob (authKickJobName 1 2)], false) :=
  c4_query_wrong_answer (fun _ => AnswerM.mk 9 "ans" false) (fun _ => QuestionM.mk 5 "qst" [])
    (fun s => s) 2 "@u" 1 "auth_challenge|2|5|9" [authKickJobName 1 2] 1000 "qst" "ans"
    (by decide) (by decide)

/-- C6: an admin-decision callback pressed by a non-administrator, and a quiz
callback pressed by a user other than the addressed one, each produce exactly
one effect — an alert-style rejection answer — and no permission change, ban,
job removal, or message edit. -/
theorem c6_unauthorized_press_no_mutation
    (chat_administrators : List ChatMemberM) (presser_id : Int) (presser_mention : String)
    (chat_id : Int) (data : String) (user_info : String) (jobs : List String)
    (get_answer : Int → AnswerM) (get_question : Int → QuestionM) (escape_md : String → String)
    (now : Int) (edit_raises : Bool) (uid : Int) (res : Bool) (q a : String) :
    (is_admin chat_administrators presser_id = false →
      admin chat_administrators presser_id presser_mention chat_id data user_info jobs
        = [Effect.answerCallbackQuery "你不是管理！\n再乱点我叫西风骑士团、千岩军和天领奉行了！" true]) ∧
    (query_callback get_answer get_question data = (uid, res, q, a) → presser_id ≠ uid →
      query get_answer get_question escape_md presser_id presser_mention chat_id data jobs
          now edit_raises
        = ([Effect.answerCallbackQuery "这不是你的验证！\n再乱点再按我叫西风骑士团、千岩军和天领奉行了！" true],
           false)) := by
  constructor
  · intro h
    simp [admin, h]
  · intro hcb hne
    unfold query
    rw [hcb]
    simp [hne]

/-- Witness for C6: presser 3 is not among the administrators `[⟨2⟩]`, and
presser 3 is not the addressed user 2 of the quiz callback. -/
theorem c6_unauthorized_press_no_mutation_witness :
    admin [ChatMemberM.mk 2] 3 "@p" 1 "auth_admin|pass|2" "u" []
        = [Effect.answerCallbackQuery "你不是管理！\n再乱点我叫西风骑士团、千岩军和天领奉行了！" true] ∧
    query (fun _ => AnswerM.mk 9 "ans" true) (fun _ => QuestionM.mk 5 "qst" []) (fun s => s)
        3 "@p" 1 "auth_challenge|2|5|9" [] 1000 false
      = ([Effect.answerCallbackQuery "这不是你的验证！\n再乱点再按我叫西风骑士团、千岩军和天领奉行了！" true],
         false) :=
  ⟨(c6_unauthorized_press_no_mutation [ChatMemberM.mk 2] 3 "@p" 1 "auth_admin|pass|2" "u" []
      (fun _ => AnswerM.mk 9 "ans" true) (fun _ => QuestionM.mk 5 "qst" []) (fun s => s)
      1000 false 2 true "qst" "ans").1 (by decide),
   (c6_unauthorized_press_no_mutation [ChatMemberM.mk 2] 3 "@p" 1 "auth_challenge|2|5|9" "u" []
      (fun _ => AnswerM.mk 9 "ans" true) (fun _ => QuestionM.mk 5 "qst" []) (fun s => s)
      1000 false 2 true "qst" "ans").2 (by decide) (by decide)⟩

/-- C10: an admin-decision callback with an unknown action, pressed by an
administrator, sends the error notice to the chat and still removes the
pending `{chat_id}|{user_id}|auth_kick` job when it exists. -/
theorem c10_unknown_admin_action
    (chat_administrators : List ChatMemberM) (presser_id : Int) (presser_mention : String)
    (chat_id : Int) (data : String) (user_info : String) (jobs : List String)
    (r : String) (uid : Int)
    (hadm : is_admin chat_administrators presser_id = true)
    (hcb : admin_callback data = (r, uid))
    (h1 : r ≠ "pass") (h2 : r ≠ "kick") (h3 : r ≠ "unban") :
    admin chat_administrators presser_id presser_mention chat_id data user_info jobs
      = Effect.sendMessage chat_id "派蒙这边收到了错误的消息！请检查详细日记！"
        :: removeJobIfExists jobs (authKickJobName chat_id uid) := by
  unfold admin
  rw [hcb]
  simp [hadm, h1, h2, h3]

/-- Witness for C10: admin presser 2, unknown action `"foo"`, the kick job
for user 42 pending. -/
theorem c10_unknown_admin_action_witness :
    admin [ChatMemberM.mk 2] 2 "@p" 1 "auth_admin|foo|42" "u" [authKickJobName 1 42]
      = Effect.sendMessage 1 "派蒙这边收到了错误的消息！请检查详细日记！"
        :: removeJobIfExists [authKickJobName 1 42] (authKickJobName 1 42) :=
  c10_unknown_admin_action [ChatMemberM.mk 2] 2 "@p" 1 "auth_admin|foo|42" "u"
    [authKickJobName 1 42] "foo" 42 (by decide) (by decide) (by decide) (by decide) (by decide)

/-- A one-question quiz service used for concrete evaluations. -/
def sampleGetQuestion : Int → QuestionM :=
  fun _ => QuestionM.mk 10 "q" [AnswerM.mk 5 "a" true]

/-- A member-processing environment in which every external call succeeds. -/
def sampleOkEnv : MemberEnv :=
  ⟨RestrictOutcome.ok, 0, [0], false, 77⟩

/-- A member-processing environment in which `restrict_chat_member` fails
with the `"Not enough rights"` error. -/
def sampleFailEnv : MemberEnv :=
  ⟨RestrictOutcome.notEnoughRights, 0, [0], false, 77⟩

/-- C1 (evaluating the code at the failing input): for the challenge created
for user 2 joining chat 1, `new_mem` schedules exactly three delayed jobs
whose names are the three distinct kind-specific names, but registers all
three under the single scheduler id `"1|2|auth_kick"` (each with
`replace_existing=True`), not under a distinct per-kind identifier. -/
theorem c1_all_jobs_registered_under_kick_id :
    ((new_mem sampleGetQuestion (fun s => s) 99 1 3 50 [UserM.mk 2 false] false true []
        [10] [sampleOkEnv]).effects.filterMap effectJobName)
      = [authKickJobName 1 2, authCleanJoinMessageJobName 1 2,
         authCleanQuestionMessageJobName 1 2] ∧
    ((new_mem sampleGetQuestion (fun s => s) 99 1 3 50 [UserM.mk 2 false] false true []
        [10] [sampleOkEnv]).effects.filterMap effectJobId)
      = [authKickJobName 1 2, authKickJobName 1 2, authKickJobName 1 2] := by
  decide

/-- C5 counterexample: chat 1's administrator list is `[2]` and user 2 is a
joining user, but the event sender is the non-admin user 3.  The handler
still restricts the joining administrator 2 and schedules the three
challenge jobs, so an event in which a joining user is an administrator does
produce a challenge for that user. -/
theorem c5_admin_joiner_still_challenged :
    is_admin [ChatMemberM.mk 2] 2 = true ∧
    is_admin [ChatMemberM.mk 2] 3 = false ∧
    (new_mem sampleGetQuestion (fun s => s) 99 1 3 50 [UserM.mk 2 false] false true
        [ChatMemberM.mk 2] [10] [sampleOkEnv]).effects.contains
      (Effect.restrictChatMember 1 2 NoSendPermissions) = true ∧
    ((new_mem sampleGetQuestion (fun s => s) 99 1 3 50 [UserM.mk 2 false] false true
        [ChatMemberM.mk 2] [10] [sampleOkEnv]).effects.filterMap effectJobName).length = 3 := by
  decide

/-- C5 amended: when the event *sender* (`message.from_user`, the joining
actor) is a chat administrator — and the event passes the earlier bot-join
and insufficient-rights early returns — the handler produces no challenge
for any joining user: no restriction, no challenge message, no scheduled
jobs; its only effect beyond the one-shot quiz refresh is the auto-pass
notice. -/
theorem c5_admin_sender_auto_pass (get_question : Int → QuestionM)
    (escape_md : String → String) (bot_id chat_id from_user_id join_message_id : Int)
    (members : List UserM) (is_refresh_quiz : Bool) (chat_administrators : List ChatMemberM)
    (question_id_list : List Int) (envs : List MemberEnv)
    (hbot : members.any (fun u => u.id = bot_id) = false)
    (hadm : is_admin chat_administrators from_user_id = true) :
    new_mem get_question escape_md bot_id chat_id from_user_id join_message_id members
        false is_refresh_quiz chat_administrators question_id_list envs
      = ⟨(if is_refresh_quiz then [] else [Effect.quizServiceRefresh])
          ++ [Effect.replyText "派蒙检测到管理员邀请，自动放行了！"], false, false⟩ := by
  simp [new_mem, hbot, hadm]

/-- Witness for the amended C5: administrator 2 invites user 4 into chat 1. -/
theorem c5_admin_sender_auto_pass_witness :
    new_mem sampleGetQuestion (fun s => s) 99 1 2 50 [UserM.mk 4 false] false false
        [ChatMemberM.mk 2] [10] [sampleOkEnv]
      = ⟨(if false then [] else [Effect.quizServiceRefresh])
          ++ [Effect.replyText "派蒙检测到管理员邀请，自动放行了！"], false, false⟩ :=
  c5_admin_sender_auto_pass sampleGetQuestion (fun s => s) 99 1 2 50 [UserM.mk 4 false]
    false [ChatMemberM.mk 2] [10] [sampleOkEnv] (by decide) (by decide)

/-- C7: (a) when restricting the first processed member fails with the
insufficient-rights error, `new_mem` records the per-chat
`not_enough_rights` flag and returns with no challenge effects at all; and
(b) while the flag is set, every subsequent new-chat-members event in that
chat returns immediately with no restriction, no message, and no scheduled
job. -/
theorem c7_not_enough_rights_flag (get_question : Int → QuestionM)
    (escape_md : String → String) (bot_id chat_id from_user_id join_message_id : Int)
    (u : UserM) (rest : List UserM) (env : MemberEnv) (envs : List MemberEnv)
    (is_refresh_quiz : Bool) (chat_administrators : List ChatMemberM)
    (question_id_list : List Int)
    (hbot : (u :: rest).any (fun m => m.id = bot_id) = false)
    (hadm : is_admin chat_administrators from_user_id = false)
    (hq : question_id_list.length ≠ 0)
    (hub : u.is_bot = false)
    (hr : env.restrict_outcome = RestrictOutcome.notEnoughRights) :
    new_mem get_question escape_md bot_id chat_id from_user_id join_message_id (u :: rest)
        false is_refresh_quiz chat_administrators question_id_list (env :: envs)
      = ⟨if is_refresh_quiz then [] else [Effect.quizServiceRefresh], true, false⟩ ∧
    (∀ (members2 : List UserM) (envs2 : List MemberEnv),
      new_mem get_question escape_md bot_id chat_id from_user_id join_message_id members2
          true is_refresh_quiz chat_administrators question_id_list envs2
        = ⟨if is_refresh_quiz then [] else [Effect.quizServiceRefresh], true, false⟩) := by
  constructor
  · simp [new_mem, hbot, hadm, processMembers, hub, hq, hr]
  · intro members2 envs2
    unfold new_mem
    by_cases hb : members2.any (fun m => m.id = bot_id) = true
    · simp [hb]
    · simp [hb]

/-- Witness for C7: user 4 joins chat 1 (sender 3, not an administrator), the
restrict call fails for lack of rights; afterwards an event for user 6 in
the flagged chat does nothing. -/
theorem c7_not_enough_rights_flag_witness :
    (new_mem sampleGetQuestion (fun s => s) 99 1 3 50 [UserM.mk 4 false] false false
        [ChatMemberM.mk 2] [10] [sampleFailEnv]
      = ⟨if false then [] else [Effect.quizServiceRefresh], true, false⟩) ∧
    (new_mem sampleGetQuestion (fun s => s) 99 1 3 50 [UserM.mk 6 false] true false
        [ChatMemberM.mk 2] [10] [sampleOkEnv]
      = ⟨if false then [] else [Effect.quizServiceRefresh], true, false⟩) :=
  have h := c7_not_enough_rights_flag sampleGetQuestion (fun s => s) 99 1 3 50
    (UserM.mk 4 false) [] sampleFailEnv [] false [ChatMemberM.mk 2] [10]
    (by decide) (by decide) (by decide) (by decide) (by decide)
  ⟨h.1, h.2 [UserM.mk 6 false] [sampleOkEnv]⟩

end PaiGram
